import Mathlib

/-!
Verification of the live-migration eligibility tool `oci-lm-check.py`.

The file embeds the decision-relevant parts of the script as pure Lean
functions: the eligibility classifier `check`, the per-compartment row
assembler `collect` (here `collectRows`), and the module-level binding
of the twice-defined `get_compartments` helper.  Remote calls
(image lookup, VNIC lookup) are passed in as fallible functions
`String → Except Unit _`; a Python exception corresponds to
`Except.error`, which aborts the surrounding computation exactly as an
uncaught exception would.
-/

/-- Boolean list-prefix test on characters. -/
def isPrefixB : List Char → List Char → Bool
  | [], _ => true
  | _ :: _, [] => false
  | a :: as, b :: bs => a == b && isPrefixB as bs

/-- Boolean list-infix test on characters. -/
def isInfixB (needle : List Char) : List Char → Bool
  | [] => isPrefixB needle []
  | c :: rest => isPrefixB needle (c :: rest) || isInfixB needle rest

/-- Python's `needle in hay` substring containment on strings. -/
def strContains (hay needle : String) : Bool :=
  isInfixB needle.data hay.data

/-- Python truthiness of an optional string (`None` and `""` are falsy). -/
def truthyOptStr : Option String → Bool
  | none => false
  | some s => !(s == "")

/-- `inst.launch_options` (only the field the script reads). -/
structure LaunchOptions where
  network_type : String
  deriving Repr, DecidableEq

/-- `inst.availability_config` (only the field the script reads);
`is_live_migration_preferred` is a nullable boolean. -/
structure AvailabilityConfig where
  is_live_migration_preferred : Option Bool
  deriving Repr, DecidableEq

/-- `inst.shape_config` (only the fields the script reads). -/
structure ShapeConfig where
  local_disks : Nat
  gpus : Nat
  deriving Repr, DecidableEq

/-- The fields of `oci.core.models.Instance` that `check`, `collect` and
`run` read. -/
structure Instance where
  id : String
  display_name : String
  region : String
  shape : String
  lifecycle_state : String
  launch_options : LaunchOptions
  availability_config : AvailabilityConfig
  dedicated_vm_host_id : Option String
  shape_config : ShapeConfig
  image_id : String
  time_maintenance_reboot_due : String
  deriving Repr, DecidableEq

/-- The field of an image record that `check` reads. -/
structure ImageDescriptor where
  operating_system : String
  deriving Repr, DecidableEq

/-- A VNIC attachment record as filtered in `collect`. -/
structure VnicAttachment where
  instance_id : String
  vnic_id : String
  deriving Repr, DecidableEq

/-- A volume attachment record as filtered in `collect`. -/
structure VolumeAttachment where
  instance_id : String
  deriving Repr, DecidableEq

/-- The fields of a VNIC record that `collect` reads. -/
structure Vnic where
  private_ip : String
  public_ip : String
  deriving Repr, DecidableEq

/-- The eligibility classifier `check` (src/oci-lm-check.py lines 132-175).
The image fetch `compute_client.get_image(...)` is the argument
`getImage`; when it raises (`Except.error`), the exception propagates out
of `check` because the source has no handler around line 170.  The control
flow is a literal transcription: `"BM." in inst.shape` returns first;
in the PARAVIRTUALIZED branch, `is_live_migration_preferred is not False`
sets `lm = "Yes"` and falls through to the dedicated-host, ARM, local-disk,
GPU and Windows checks, while an explicit `False` returns "No - disabled";
a non-PARAVIRTUALIZED network type returns "No (NIC type)". -/
def check (inst : Instance) (getImage : String → Except Unit ImageDescriptor) :
    Except Unit String :=
  if strContains inst.shape "BM." then
    Except.ok "No - Bare Metal"
  else
    if inst.launch_options.network_type == "PARAVIRTUALIZED" then
      if inst.availability_config.is_live_migration_preferred != some false then
        if truthyOptStr inst.dedicated_vm_host_id then
          Except.ok "No (DVH)"
        else if strContains inst.shape "VM.Standard.A1." then
          Except.ok "No (ARM instance)"
        else if inst.shape_config.local_disks > 0 then
          Except.ok "No (DenseIO)"
        else if inst.shape_config.gpus > 0 then
          Except.ok "No (GPU)"
        else
          match getImage inst.image_id with
          | Except.error e => Except.error e
          | Except.ok image =>
            if image.operating_system == "Windows" then
              Except.ok "No (Windows)"
            else
              Except.ok "Yes"
      else
        Except.ok "No - disabled"
    else
      Except.ok "No (NIC type)"

/-- C2: a shape containing the bare-metal marker "BM." yields the bare-metal
verdict no matter what every other field or the image lookup does, because
line 134's check returns before any other field is read. -/
theorem c2_bare_metal_first (i : Instance)
    (g : String → Except Unit ImageDescriptor)
    (h : strContains i.shape "BM." = true) :
    check i g = Except.ok "No - Bare Metal" := by
  unfold check
  rw [h]
  rfl

/-- C2 witness: the spec scenario shape "BM.Standard2.52", with every other
field set adversarially (VFIO network, flag false, dedicated host, disks,
GPUs, Windows image), still classifies as "No - Bare Metal". -/
theorem c2_bare_metal_first_witness :
    check
      { id := "ocid1.instance.oc1..bm", display_name := "bm-host",
        region := "us-ashburn-1", shape := "BM.Standard2.52",
        lifecycle_state := "RUNNING",
        launch_options := { network_type := "VFIO" },
        availability_config := { is_live_migration_preferred := some false },
        dedicated_vm_host_id := some "ocid1.dedicatedvmhost.oc1..x",
        shape_config := { local_disks := 2, gpus := 4 },
        image_id := "ocid1.image.oc1..win",
        time_maintenance_reboot_due := "" }
      (fun _ => Except.ok { operating_system := "Windows" }) =
      Except.ok "No - Bare Metal" :=
  c2_bare_metal_first _ _ (by decide)

/-- Replace only the live-migration-preferred flag of a descriptor,
leaving every other field unchanged. -/
def setPreferred (i : Instance) (b : Option Bool) : Instance :=
  { i with availability_config := { is_live_migration_preferred := b } }

/-- C3: on an otherwise fully eligible descriptor (non-bare-metal shape,
PARAVIRTUALIZED network, no dedicated host, non-ARM shape, zero local disks,
zero GPUs, resolvable non-Windows image), a null or true
live-migration-preferred flag yields "Yes" and an explicit false yields
"No - disabled"; changing only the flag from null to false flips the
verdict (lines 140-145: `is not False` treats null as preferred). -/
theorem c3_preferred_flag_null_default (i : Instance)
    (g : String → Except Unit ImageDescriptor) (img : ImageDescriptor)
    (hbm : strContains i.shape "BM." = false)
    (hnet : i.launch_options.network_type = "PARAVIRTUALIZED")
    (hdvh : truthyOptStr i.dedicated_vm_host_id = false)
    (harm : strContains i.shape "VM.Standard.A1." = false)
    (hdisk : i.shape_config.local_disks = 0)
    (hgpu : i.shape_config.gpus = 0)
    (himg : g i.image_id = Except.ok img)
    (hos : img.operating_system ≠ "Windows") :
    check (setPreferred i none) g = Except.ok "Yes" ∧
    check (setPreferred i (some true)) g = Except.ok "Yes" ∧
    check (setPreferred i (some false)) g = Except.ok "No - disabled" := by
  refine ⟨?_, ?_, ?_⟩ <;>
    simp [check, setPreferred, hbm, hnet, hdvh, harm, hdisk, hgpu, himg, hos]

/-- C3 witness: the spec scenario VM.Standard.E4.Flex / PARAVIRTUALIZED /
no dedicated host / zero disks and GPUs / Linux image: flag null or true
gives "Yes", flag false gives "No - disabled". -/
theorem c3_preferred_flag_null_default_witness :
    check
      (setPreferred
        { id := "ocid1.instance.oc1..a", display_name := "app-1",
          region := "us-ashburn-1", shape := "VM.Standard.E4.Flex",
          lifecycle_state := "RUNNING",
          launch_options := { network_type := "PARAVIRTUALIZED" },
          availability_config := { is_live_migration_preferred := none },
          dedicated_vm_host_id := none,
          shape_config := { local_disks := 0, gpus := 0 },
          image_id := "ocid1.image.oc1..linux",
          time_maintenance_reboot_due := "" } none)
      (fun _ => Except.ok { operating_system := "Linux" }) = Except.ok "Yes" ∧
    check
      (setPreferred
        { id := "ocid1.instance.oc1..a", display_name := "app-1",
          region := "us-ashburn-1", shape := "VM.Standard.E4.Flex",
          lifecycle_state := "RUNNING",
          launch_options := { network_type := "PARAVIRTUALIZED" },
          availability_config := { is_live_migration_preferred := none },
          dedicated_vm_host_id := none,
          shape_config := { local_disks := 0, gpus := 0 },
          image_id := "ocid1.image.oc1..linux",
          time_maintenance_reboot_due := "" } (some false))
      (fun _ => Except.ok { operating_system := "Linux" }) =
      Except.ok "No - disabled" := by
  have h := c3_preferred_flag_null_default
    { id := "ocid1.instance.oc1..a", display_name := "app-1",
      region := "us-ashburn-1", shape := "VM.Standard.E4.Flex",
      lifecycle_state := "RUNNING",
      launch_options := { network_type := "PARAVIRTUALIZED" },
      availability_config := { is_live_migration_preferred := none },
      dedicated_vm_host_id := none,
      shape_config := { local_disks := 0, gpus := 0 },
      image_id := "ocid1.image.oc1..linux",
      time_maintenance_reboot_due := "" }
    (fun _ => Except.ok { operating_system := "Linux" })
    { operating_system := "Linux" }
    (by decide) rfl rfl (by decide) rfl rfl rfl (by decide)
  exact ⟨h.1, h.2.2⟩

/-- C4 counterexample: a descriptor with a non-PARAVIRTUALIZED network type
whose shape contains "BM." gets "No - Bare Metal", not "No (NIC type)",
because the bare-metal check at line 134 precedes the NIC check. -/
theorem c4_nic_type_counterexample :
    let iBM : Instance :=
      { id := "ocid1.instance.oc1..c4", display_name := "bm-gpu",
        region := "us-ashburn-1", shape := "BM.GPU4.8",
        lifecycle_state := "RUNNING",
        launch_options := { network_type := "VFIO" },
        availability_config := { is_live_migration_preferred := none },
        dedicated_vm_host_id := none,
        shape_config := { local_disks := 0, gpus := 8 },
        image_id := "ocid1.image.oc1..linux",
        time_maintenance_reboot_due := "" }
    iBM.launch_options.network_type ≠ "PARAVIRTUALIZED" ∧
      check iBM (fun _ => Except.ok { operating_system := "Linux" }) ≠
        Except.ok "No (NIC type)" ∧
      check iBM (fun _ => Except.ok { operating_system := "Linux" }) =
        Except.ok "No - Bare Metal" := by
  refine ⟨by decide, ?_, rfl⟩
  intro h
  have hok : (Except.ok "No - Bare Metal" : Except Unit String) =
      Except.ok "No (NIC type)" := Eq.trans (by rfl) h
  exact absurd (Except.ok.inj hok) (by decide)

/-- C4 amended: for every descriptor whose shape does not contain the
bare-metal marker, a non-PARAVIRTUALIZED network type yields
"No (NIC type)" (lines 134-150) regardless of every later field. -/
theorem c4_nic_type_amended (i : Instance)
    (g : String → Except Unit ImageDescriptor)
    (hbm : strContains i.shape "BM." = false)
    (hnet : i.launch_options.network_type ≠ "PARAVIRTUALIZED") :
    check i g = Except.ok "No (NIC type)" := by
  simp [check, hbm, hnet]

/-- C4 amended witness: a non-bare-metal shape with VFIO networking is
classified "No (NIC type)". -/
theorem c4_nic_type_amended_witness :
    check
      { id := "ocid1.instance.oc1..c4w", display_name := "vfio-vm",
        region := "us-ashburn-1", shape := "VM.Standard2.1",
        lifecycle_state := "RUNNING",
        launch_options := { network_type := "VFIO" },
        availability_config := { is_live_migration_preferred := none },
        dedicated_vm_host_id := none,
        shape_config := { local_disks := 0, gpus := 0 },
        image_id := "ocid1.image.oc1..linux",
        time_maintenance_reboot_due := "" }
      (fun _ => Except.ok { operating_system := "Linux" }) =
      Except.ok "No (NIC type)" :=
  c4_nic_type_amended _ _ (by decide) (by decide)

/-- C5: when no rule preceding the ARM check fires (non-bare-metal shape,
PARAVIRTUALIZED network, flag not explicitly false, no dedicated host), a
descriptor whose shape matches the ARM marker "VM.Standard.A1." gets
"No (ARM instance)" even with GPU count > 0, because line 156's ARM check
precedes line 165's GPU check. -/
theorem c5_arm_precedes_gpu (i : Instance)
    (g : String → Except Unit ImageDescriptor)
    (hbm : strContains i.shape "BM." = false)
    (hnet : i.launch_options.network_type = "PARAVIRTUALIZED")
    (hflag : i.availability_config.is_live_migration_preferred ≠ some false)
    (hdvh : truthyOptStr i.dedicated_vm_host_id = false)
    (harm : strContains i.shape "VM.Standard.A1." = true)
    (hgpu : 0 < i.shape_config.gpus) :
    check i g = Except.ok "No (ARM instance)" := by
  simp [check, hbm, hnet, hflag, hdvh, harm]

/-- C5 witness: an ARM Flex shape with 1 GPU and otherwise eligible fields
is classified "No (ARM instance)", not "No (GPU)". -/
theorem c5_arm_precedes_gpu_witness :
    check
      { id := "ocid1.instance.oc1..c5", display_name := "arm-gpu",
        region := "us-ashburn-1", shape := "VM.Standard.A1.Flex",
        lifecycle_state := "RUNNING",
        launch_options := { network_type := "PARAVIRTUALIZED" },
        availability_config := { is_live_migration_preferred := none },
        dedicated_vm_host_id := none,
        shape_config := { local_disks := 0, gpus := 1 },
        image_id := "ocid1.image.oc1..linux",
        time_maintenance_reboot_due := "" }
      (fun _ => Except.ok { operating_system := "Linux" }) =
      Except.ok "No (ARM instance)" :=
  c5_arm_precedes_gpu _ _ (by decide) rfl (by decide) rfl (by decide)
    (by decide)

/-- The per-batch context of `collect` (src/oci-lm-check.py lines 177-217):
the compartment being listed, the attachment listings fetched at lines
180-181, and the two remote lookups (`vcn_client.get_vnic`,
`compute_client.get_image`) as fallible functions. -/
structure CollectCtx where
  compartment_name : String
  vnic_attachments : List VnicAttachment
  volume_attachments : List VolumeAttachment
  getVnic : String → Except Unit Vnic
  getImage : String → Except Unit ImageDescriptor

/-- A report row: the list of cell strings passed to
`instance_table.add_row`. -/
abbrev Row := List String

/-- The column headers declared in `run` (lines 224-235), in order. -/
def reportColumns : List String :=
  ["COMPARTMENT", "ID", "NAME", "REGION", "SHAPE", "PRIVATE IP", "PUBLIC IP",
   "STATE", "NIC TYPE", "VOLUMES", "MAINTENANCE", "LIVE MIGRATION"]

/-- The cell a row renders under column index `j`: `rich` pads a row that
has fewer cells than the table has columns with empty cells. -/
def cellAt (r : Row) (j : Nat) : String := r.getD j ""

/-- The row `collect` emits for a RUNNING instance (line 207). -/
def runningRow (ctx : CollectCtx) (i : Instance) (vs : List Vnic)
    (bva : List VolumeAttachment) (lm : String) : Row :=
  [ctx.compartment_name, i.id, i.display_name, i.region, i.shape,
   (vs.headD { private_ip := "", public_ip := "" }).private_ip,
   (vs.headD { private_ip := "", public_ip := "" }).public_ip,
   i.lifecycle_state, i.launch_options.network_type,
   toString bva.length, i.time_maintenance_reboot_due, lm]

/-- The row `collect` emits for a STOPPED or STOPPING instance
(lines 211 and 214): only ten cells, in the order the source passes
them to `add_row`. -/
def stoppedRow (i : Instance) : Row :=
  [i.id, i.display_name, i.shape, "", "", i.lifecycle_state,
   i.launch_options.network_type, "N/A", "N/A", "N/A"]

/-- The instance loop of `collect` (lines 185-215), returning the rows it
adds to the table.  TERMINATED instances are skipped at line 186; RUNNING
instances are matched against the VNIC and volume attachment listings by
substring containment of the instance id (lines 192 and 194) and only
produce a row when at least one VNIC attachment matched (line 197),
fetching every matched VNIC and classifying with `check` first; STOPPED
and STOPPING instances produce the ten-cell `stoppedRow`; an uncaught
exception from any remote call (`Except.error`) aborts the whole batch. -/
def collectRows (ctx : CollectCtx) : List Instance → Except Unit (List Row)
  | [] => Except.ok []
  | i :: rest =>
    if i.lifecycle_state == "TERMINATED" then
      collectRows ctx rest
    else if i.lifecycle_state == "RUNNING" then
      let va := ctx.vnic_attachments.filter
        (fun x => strContains x.instance_id i.id)
      let bva := ctx.volume_attachments.filter
        (fun x => strContains x.instance_id i.id)
      if 0 < va.length then
        match va.mapM (fun v => ctx.getVnic v.vnic_id) with
        | Except.error e => Except.error e
        | Except.ok vs =>
          match check i ctx.getImage with
          | Except.error e => Except.error e
          | Except.ok lm =>
            match collectRows ctx rest with
            | Except.error e => Except.error e
            | Except.ok rows => Except.ok (runningRow ctx i vs bva lm :: rows)
      else
        collectRows ctx rest
    else if i.lifecycle_state == "STOPPED" || i.lifecycle_state == "STOPPING" then
      match collectRows ctx rest with
      | Except.error e => Except.error e
      | Except.ok rows => Except.ok (stoppedRow i :: rows)
    else
      collectRows ctx rest

/-- The recursion of `collectRows` only looks at the head instance and the
result for the tail, so equal tail results give equal cons results. -/
theorem collectRows_cons_congr (ctx : CollectCtx) (i : Instance)
    (l₁ l₂ : List Instance)
    (h : collectRows ctx l₁ = collectRows ctx l₂) :
    collectRows ctx (i :: l₁) = collectRows ctx (i :: l₂) := by
  simp only [collectRows, h]

/-- C6: TERMINATED instances are excluded entirely — filtering them out of
the input stream leaves the emitted rows (and any abort) unchanged, because
line 186 `continue`s before any row is produced. -/
theorem c6_terminated_excluded (ctx : CollectCtx) (l : List Instance) :
    collectRows ctx
        (l.filter (fun i => !(i.lifecycle_state == "TERMINATED"))) =
      collectRows ctx l := by
  induction l with
  | nil => rfl
  | cons i rest ih =>
    by_cases h : i.lifecycle_state == "TERMINATED"
    · rw [List.filter_cons_of_neg (by simp [h]), ih]
      conv_rhs => rw [collectRows]
      rw [if_pos h]
    · rw [List.filter_cons_of_pos (by simp [h])]
      exact collectRows_cons_congr ctx i _ rest ih

/-- C8: a RUNNING instance whose matching VNIC-attachment list is empty is
skipped without error: line 197's `len(va) > 0` guard wraps the VNIC fetch,
the volume count, the classifier call and the `add_row`, so the loop moves
on to the remaining instances. -/
theorem c8_running_without_vnic_skipped (ctx : CollectCtx) (i : Instance)
    (rest : List Instance)
    (hrun : i.lifecycle_state = "RUNNING")
    (hva : ctx.vnic_attachments.filter
      (fun x => strContains x.instance_id i.id) = []) :
    collectRows ctx (i :: rest) = collectRows ctx rest := by
  simp [collectRows, hrun, hva]

/-- C8 witness: a lone RUNNING instance with no VNIC attachments in the
compartment produces an empty, successful report. -/
theorem c8_running_without_vnic_skipped_witness :
    ({ compartment_name := "dev", vnic_attachments := [],
       volume_attachments := [],
       getVnic := fun _ => Except.error (),
       getImage := fun _ => Except.error () } : CollectCtx).vnic_attachments.filter
        (fun x => strContains x.instance_id "ocid1.instance.oc1..c8") = [] ∧
    collectRows
      { compartment_name := "dev", vnic_attachments := [],
        volume_attachments := [],
        getVnic := fun _ => Except.error (),
        getImage := fun _ => Except.error () }
      [{ id := "ocid1.instance.oc1..c8", display_name := "orphan",
         region := "us-ashburn-1", shape := "VM.Standard.E4.Flex",
         lifecycle_state := "RUNNING",
         launch_options := { network_type := "PARAVIRTUALIZED" },
         availability_config := { is_live_migration_preferred := none },
         dedicated_vm_host_id := none,
         shape_config := { local_disks := 0, gpus := 0 },
         image_id := "ocid1.image.oc1..linux",
         time_maintenance_reboot_due := "" }] = Except.ok [] :=
  ⟨rfl,
    Eq.trans
      (c8_running_without_vnic_skipped _ _ [] rfl rfl)
      rfl⟩

/-- A concrete STOPPED instance used to exhibit the stopped-row layout. -/
def stoppedInst : Instance :=
  { id := "ocid1.instance.oc1..c7", display_name := "stopped-vm",
    region := "us-ashburn-1", shape := "VM.Standard2.1",
    lifecycle_state := "STOPPED",
    launch_options := { network_type := "PARAVIRTUALIZED" },
    availability_config := { is_live_migration_preferred := none },
    dedicated_vm_host_id := none,
    shape_config := { local_disks := 0, gpus := 0 },
    image_id := "ocid1.image.oc1..linux",
    time_maintenance_reboot_due := "" }

/-- A collect context over `stoppedInst` whose image lookup is a
parameter, to show the lookup (and hence the classifier) is never
consulted for stopped instances. -/
def stoppedCtx (g : String → Except Unit ImageDescriptor) : CollectCtx :=
  { compartment_name := "dev",
    vnic_attachments := [{ instance_id := "ocid1.instance.oc1..c7",
                           vnic_id := "ocid1.vnic.oc1..v" }],
    volume_attachments := [],
    getVnic := fun _ => Except.ok { private_ip := "10.0.0.7", public_ip := "" },
    getImage := g }

/-- C7: for a STOPPED instance the classifier is indeed never invoked (the
emitted rows are the same for every image lookup), but the emitted row has
only ten cells that line up wrongly with the twelve declared columns: the
instance id lands under COMPARTMENT, "N/A" lands under STATE, NIC TYPE and
VOLUMES, and the LIVE MIGRATION (verdict) column is left empty rather than
rendering "N/A" — lines 211 and 214 still pass the argument list of an
older ten-column layout. -/
theorem c7_stopped_row_misaligned :
    (∀ g : String → Except Unit ImageDescriptor,
      collectRows (stoppedCtx g) [stoppedInst] =
        Except.ok [stoppedRow stoppedInst]) ∧
    stoppedRow stoppedInst =
      ["ocid1.instance.oc1..c7", "stopped-vm", "VM.Standard2.1", "", "",
       "STOPPED", "PARAVIRTUALIZED", "N/A", "N/A", "N/A"] ∧
    cellAt (stoppedRow stoppedInst) (reportColumns.indexOf "NIC TYPE") =
      "N/A" ∧
    cellAt (stoppedRow stoppedInst) (reportColumns.indexOf "VOLUMES") =
      "N/A" ∧
    cellAt (stoppedRow stoppedInst) (reportColumns.indexOf "LIVE MIGRATION") =
      "" ∧
    cellAt (stoppedRow stoppedInst) (reportColumns.indexOf "LIVE MIGRATION") ≠
      "N/A" ∧
    cellAt (stoppedRow stoppedInst) (reportColumns.indexOf "COMPARTMENT") =
      stoppedInst.id := by
  refine ⟨fun g => rfl, rfl, rfl, rfl, rfl, by decide, rfl⟩

/-- A concrete RUNNING instance that passes every classifier rule up to the
image lookup. -/
def eligibleInst : Instance :=
  { id := "ocid1.instance.oc1..c1", display_name := "app-1",
    region := "us-ashburn-1", shape := "VM.Standard.E4.Flex",
    lifecycle_state := "RUNNING",
    launch_options := { network_type := "PARAVIRTUALIZED" },
    availability_config := { is_live_migration_preferred := none },
    dedicated_vm_host_id := none,
    shape_config := { local_disks := 0, gpus := 0 },
    image_id := "ocid1.image.oc1..gone",
    time_maintenance_reboot_due := "" }

/-- A collect context in which the image lookup always raises but the VNIC
lookup succeeds and `eligibleInst` has a matching VNIC attachment. -/
def failingImageCtx : CollectCtx :=
  { compartment_name := "dev",
    vnic_attachments := [{ instance_id := "ocid1.instance.oc1..c1",
                           vnic_id := "ocid1.vnic.oc1..v1" }],
    volume_attachments := [],
    getVnic := fun _ => Except.ok { private_ip := "10.0.0.1", public_ip := "" },
    getImage := fun _ => Except.error () }

/-- C1: when the per-instance image lookup fails, the exception escapes
`check` (there is no handler around line 170) and aborts the whole batch:
`check` returns the propagated error rather than any "Unknown" sentinel,
and `collect` over the failing instance followed by a perfectly renderable
STOPPED instance produces no rows at all instead of continuing. -/
theorem c1_image_lookup_failure_fatal :
    check eligibleInst (fun _ => Except.error ()) = Except.error () ∧
    check eligibleInst (fun _ => Except.error ()) ≠ Except.ok "Unknown" ∧
    collectRows failingImageCtx [eligibleInst, stoppedInst] =
      Except.error () := by
  refine ⟨rfl, ?_, rfl⟩
  intro h
  exact Except.noConfusion (Eq.trans (Eq.symm (rfl :
    check eligibleInst (fun _ => Except.error ()) = Except.error ())) h)

/-- The classifier with the instance object threaded through explicitly:
each return site hands back the verdict together with the instance object
as the function leaves it.  The source of `check` contains no assignment
to any attribute of `instance`, so every branch returns it untouched. -/
def checkS (inst : Instance) (getImage : String → Except Unit ImageDescriptor) :
    Except Unit String × Instance :=
  if strContains inst.shape "BM." then
    (Except.ok "No - Bare Metal", inst)
  else
    if inst.launch_options.network_type == "PARAVIRTUALIZED" then
      if inst.availability_config.is_live_migration_preferred != some false then
        if truthyOptStr inst.dedicated_vm_host_id then
          (Except.ok "No (DVH)", inst)
        else if strContains inst.shape "VM.Standard.A1." then
          (Except.ok "No (ARM instance)", inst)
        else if inst.shape_config.local_disks > 0 then
          (Except.ok "No (DenseIO)", inst)
        else if inst.shape_config.gpus > 0 then
          (Except.ok "No (GPU)", inst)
        else
          match getImage inst.image_id with
          | Except.error e => (Except.error e, inst)
          | Except.ok image =>
            if image.operating_system == "Windows" then
              (Except.ok "No (Windows)", inst)
            else
              (Except.ok "Yes", inst)
      else
        (Except.ok "No - disabled", inst)
    else
      (Except.ok "No (NIC type)", inst)

/-- The threaded classifier computes the same verdict as `check` and hands
the instance back unchanged. -/
theorem checkS_eq (i : Instance) (g : String → Except Unit ImageDescriptor) :
    checkS i g = (check i g, i) := by
  unfold checkS check
  repeat' split
  all_goals rfl

/-- C9: the classifier never mutates its input descriptor — the instance
object comes back field-for-field equal — and it is referentially
transparent: two image lookups that agree on the instance's image id give
the same verdict. -/
theorem c9_check_pure_frame (i : Instance)
    (g₁ g₂ : String → Except Unit ImageDescriptor)
    (h : g₁ i.image_id = g₂ i.image_id) :
    (checkS i g₁).2 = i ∧ (checkS i g₁).1 = (checkS i g₂).1 := by
  rw [checkS_eq, checkS_eq]
  refine ⟨rfl, ?_⟩
  simp only [check, h]

/-- C9 witness: on a concrete descriptor, two lookups that agree on its
image id (one failing elsewhere) give back the untouched descriptor and
the same verdict. -/
theorem c9_check_pure_frame_witness :
    (fun s => if s == "ocid1.image.oc1..gone" then
        (Except.error () : Except Unit ImageDescriptor)
      else Except.ok { operating_system := "Linux" }) eligibleInst.image_id =
      (fun _ => (Except.error () : Except Unit ImageDescriptor))
        eligibleInst.image_id ∧
    (checkS eligibleInst (fun s => if s == "ocid1.image.oc1..gone" then
        Except.error () else Except.ok { operating_system := "Linux" })).2 =
      eligibleInst ∧
    (checkS eligibleInst (fun s => if s == "ocid1.image.oc1..gone" then
        Except.error () else Except.ok { operating_system := "Linux" })).1 =
      (checkS eligibleInst (fun _ => Except.error ())).1 := by
  have h := c9_check_pure_frame eligibleInst
    (fun s => if s == "ocid1.image.oc1..gone" then
      Except.error () else Except.ok { operating_system := "Linux" })
    (fun _ => Except.error ()) rfl
  exact ⟨rfl, h.1, h.2⟩

/-- A Python function object as far as call arity is concerned: its
positional parameter list. -/
structure PyFunc where
  params : List String
  deriving Repr, DecidableEq

/-- The top-level `def` statements of src/oci-lm-check.py, in source
order, each with its parameter list.  Lines 80 and 88 both bind the name
`get_compartments`. -/
def moduleDefs : List (String × PyFunc) :=
  [("compartments_selector", { params := ["compartments"] }),
   ("region_selector", { params := ["regions"] }),
   ("get_regions", { params := ["identity", "config"] }),
   ("get_instances", { params := ["compute_client", "compartment"] }),
   ("get_compartments", { params := ["profile"] }),
   ("get_compartments", { params := ["profile", "compartment"] }),
   ("main", { params := ["compartment", "region", "profile", "b"] }),
   ("check", { params := ["instance", "compute_client"] }),
   ("collect", { params := ["compute_client", "vcn_client", "compartment",
                            "region", "instance_table"] }),
   ("run", { params := ["compartments", "profile", "r"] })]

/-- Python module execution binds `def` statements sequentially into the
module namespace; a later `def` of the same name overwrites the earlier
binding. -/
def bindDefs (defs : List (String × PyFunc)) : String → Option PyFunc :=
  defs.foldl (fun env nf => fun m => if m = nf.1 then some nf.2 else env m)
    (fun _ => none)

/-- The module namespace after all top-level `def`s have executed. -/
def moduleEnv : String → Option PyFunc := bindDefs moduleDefs

/-- Calling a name with a given number of positional arguments: an unbound
name raises NameError, an arity mismatch raises TypeError before the body
runs. -/
def callArity (env : String → Option PyFunc) (fname : String)
    (nargs : Nat) : Except String PyFunc :=
  match env fname with
  | none => Except.error "NameError"
  | some f =>
    if nargs = f.params.length then Except.ok f else Except.error "TypeError"

/-- The number of positional arguments `main` passes to `get_compartments`
on each path of lines 108-115: one argument on the interactive path
(line 109, `compartment` omitted and not batch) and on the batch path
(line 114, `compartment` omitted with `-b`), two when `--compartment_id`
is given (line 112). -/
def mainGetCompartmentsArity (compartment : Option String) (b : Bool) : Nat :=
  match compartment, b with
  | none, false => 1
  | some _, _ => 2
  | none, true => 1

/-- C10: after the module loads, `get_compartments` denotes only the later
two-parameter definition (line 88 shadows line 80, which up to that point
was the one-parameter binding), so every `main` path that omits
`--compartment_id` — interactive (`b = false`) and batch (`b = true`)
alike — calls it with one argument and raises TypeError before any
compartment selection or data collection occurs. -/
theorem c10_get_compartments_shadowed :
    bindDefs (moduleDefs.take 5) "get_compartments" =
      some { params := ["profile"] } ∧
    moduleEnv "get_compartments" =
      some { params := ["profile", "compartment"] } ∧
    ∀ b : Bool,
      mainGetCompartmentsArity none b = 1 ∧
      callArity moduleEnv "get_compartments"
          (mainGetCompartmentsArity none b) =
        Except.error "TypeError" := by
  refine ⟨rfl, rfl, fun b => ?_⟩
  cases b
  · exact ⟨rfl, rfl⟩
  · exact ⟨rfl, rfl⟩
